import Mathlib

set_option maxRecDepth 100000

/-!
# Verification of the Ink Shopify Dashboard core subsystem

Shallow embedding of the deterministic NFC identity derivation, the webhook
signature verification, the proof-authority client error classification, the
order resolver fallback chain, and the metafield synchronization performed by
the webhook and enrollment handlers, together with proofs about the spec's
claims on these components.

Machine integers are modelled as `Nat` with explicit reduction `% 2^32`;
strings are Lean `String`s, hashed through their UTF-8 byte encoding exactly
as Node's `crypto` module does.
-/

namespace Ink

/-! ## 32-bit word arithmetic -/

/-- Word size modulus, `2^32`. -/
def w32 : Nat := 4294967296

/-- Addition modulo `2^32`. -/
def add32 (a b : Nat) : Nat := (a + b) % w32

/-- Right rotation of a 32-bit word by `n` bits. -/
def rotr32 (n x : Nat) : Nat := ((x >>> n) ||| (x <<< (32 - n))) % w32

/-- Logical right shift (no reduction needed for `x < 2^32`). -/
def shr32 (n x : Nat) : Nat := x >>> n

/-! ## SHA-256 (FIPS 180-4), over lists of bytes -/

/-- The eight initial hash values `H0`..`H7`. -/
structure Hash8 where
  a : Nat
  b : Nat
  c : Nat
  d : Nat
  e : Nat
  f : Nat
  g : Nat
  h : Nat
deriving Repr, DecidableEq

/-- SHA-256 initial state (the `H0`..`H7` constants, written in decimal). -/
def sha256Init : Hash8 :=
  ⟨1779033703, 3144134277, 1013904242, 2773480762, 1359893119,
   2600822924, 528734635, 1541459225⟩

/-- The 64 SHA-256 round constants, written in decimal. -/
def sha256K : List Nat :=
  [1116352408, 1899447441, 3049323471, 3921009573, 961987163,
   1508970993, 2453635748, 2870763221, 3624381080, 310598401,
   607225278, 1426881987, 1925078388, 2162078206, 2614888103,
   3248222580, 3835390401, 4022224774, 264347078, 604807628,
   770255983, 1249150122, 1555081692, 1996064986, 2554220882,
   2821834349, 2952996808, 3210313671, 3336571891, 3584528711,
   113926993, 338241895, 666307205, 773529912, 1294757372,
   1396182291, 1695183700, 1986661051, 2177026350, 2456956037,
   2730485921, 2820302411, 3259730800, 3345764771, 3516065817,
   3600352804, 4094571909, 275423344, 430227734, 506948616,
   659060556, 883997877, 958139571, 1322822218, 1537002063,
   1747873779, 1955562222, 2024104815, 2227730452, 2361852424,
   2428436474, 2756734187, 3204031479, 3329325298]

/-- Small sigma 0: message-schedule mixing function. -/
def lsig0 (x : Nat) : Nat := (rotr32 7 x) ^^^ (rotr32 18 x) ^^^ (shr32 3 x)

/-- Small sigma 1: message-schedule mixing function. -/
def lsig1 (x : Nat) : Nat := (rotr32 17 x) ^^^ (rotr32 19 x) ^^^ (shr32 10 x)

/-- Big Sigma 0: compression mixing function. -/
def bsig0 (x : Nat) : Nat := (rotr32 2 x) ^^^ (rotr32 13 x) ^^^ (rotr32 22 x)

/-- Big Sigma 1: compression mixing function. -/
def bsig1 (x : Nat) : Nat := (rotr32 6 x) ^^^ (rotr32 11 x) ^^^ (rotr32 25 x)

/-- Choice function. -/
def chF (x y z : Nat) : Nat := (x &&& y) ^^^ ((w32 - 1 - x) &&& z)

/-- Majority function. -/
def majF (x y z : Nat) : Nat := (x &&& y) ^^^ (x &&& z) ^^^ (y &&& z)

/-- Big-endian 8-byte encoding of a 64-bit length. -/
def lenBytes64 (n : Nat) : List Nat :=
  [(n >>> 56) % 256, (n >>> 48) % 256, (n >>> 40) % 256, (n >>> 32) % 256,
   (n >>> 24) % 256, (n >>> 16) % 256, (n >>> 8) % 256, n % 256]

/-- SHA-256 padding: append `0x80`, zeros to 56 mod 64, then the bit length. -/
def sha256Pad (msg : List Nat) : List Nat :=
  let l := msg.length
  msg ++ (128 :: List.replicate ((64 - (l + 9) % 64) % 64) 0) ++ lenBytes64 (8 * l)

/-- Split a byte list into 64-byte chunks, structurally recursing on fuel so
that the kernel can evaluate it. The fuel is always at least the list length. -/
def chunks64Fuel : Nat → List Nat → List (List Nat)
  | _, [] => []
  | 0, l => [l]
  | fuel + 1, x :: rest => ((x :: rest).take 64) :: chunks64Fuel fuel ((x :: rest).drop 64)

/-- Split a byte list into 64-byte chunks. -/
def chunks64 (l : List Nat) : List (List Nat) := chunks64Fuel l.length l

/-- Group bytes into big-endian 32-bit words, four bytes at a time. -/
def bytesToWords : List Nat → List Nat
  | b0 :: b1 :: b2 :: b3 :: rest =>
    (b0 <<< 24 ||| b1 <<< 16 ||| b2 <<< 8 ||| b3) :: bytesToWords rest
  | _ => []

/-- The next word of the message schedule, from the words so far. -/
def nextWord (ws : List Nat) : Nat :=
  let l := ws.length
  (ws.getD (l - 16) 0 + lsig0 (ws.getD (l - 15) 0) +
   ws.getD (l - 7) 0 + lsig1 (ws.getD (l - 2) 0)) % w32

/-- Extend the 16-word schedule by `n` further words. -/
def extendWords (ws : List Nat) : Nat → List Nat
  | 0 => ws
  | n + 1 => extendWords (ws ++ [nextWord ws]) n

/-- One SHA-256 compression round for a `(constant, scheduleWord)` pair. -/
def sha256Round (st : Hash8) (kw : Nat × Nat) : Hash8 :=
  let t1 := (st.h + bsig1 st.e + chF st.e st.f st.g + kw.1 + kw.2) % w32
  let t2 := (bsig0 st.a + majF st.a st.b st.c) % w32
  ⟨(t1 + t2) % w32, st.a, st.b, st.c, add32 st.d t1, st.e, st.f, st.g⟩

/-- Compress a single 64-byte chunk into the running hash state. -/
def sha256Compress (st : Hash8) (chunk : List Nat) : Hash8 :=
  let ws := extendWords (bytesToWords chunk) 48
  let r := (sha256K.zip ws).foldl sha256Round st
  ⟨add32 st.a r.a, add32 st.b r.b, add32 st.c r.c, add32 st.d r.d,
   add32 st.e r.e, add32 st.f r.f, add32 st.g r.g, add32 st.h r.h⟩

/-- Big-endian 4-byte decomposition of a 32-bit word. -/
def wordBytes (x : Nat) : List Nat :=
  [(x >>> 24) % 256, (x >>> 16) % 256, (x >>> 8) % 256, x % 256]

/-- SHA-256 digest of a byte list, as 32 bytes. -/
def sha256Bytes (msg : List Nat) : List Nat :=
  let st := (chunks64 (sha256Pad msg)).foldl sha256Compress sha256Init
  wordBytes st.a ++ wordBytes st.b ++ wordBytes st.c ++ wordBytes st.d ++
  wordBytes st.e ++ wordBytes st.f ++ wordBytes st.g ++ wordBytes st.h

/-- Lower-case hex encoding of one byte. -/
def byteHex (b : Nat) : List Char := [Nat.digitChar (b / 16), Nat.digitChar (b % 16)]

/-- Lower-case hex encoding of a byte list. -/
def bytesHex (bs : List Nat) : String := String.mk (bs.flatMap byteHex)

/-- UTF-8 encoding of a character, as Node's `Buffer.from`/`hash.update` use. -/
def utf8Char (c : Char) : List Nat :=
  let n := c.toNat
  if n < 128 then [n]
  else if n < 2048 then [192 + n / 64, 128 + n % 64]
  else if n < 65536 then [224 + n / 4096, 128 + (n / 64) % 64, 128 + n % 64]
  else [240 + n / 262144, 128 + (n / 4096) % 64, 128 + (n / 64) % 64, 128 + n % 64]

/-- UTF-8 byte encoding of a string. -/
def utf8Str (s : String) : List Nat := s.data.flatMap utf8Char

/-- `crypto.createHash('sha256').update(s).digest('hex')`. -/
def sha256HexOfString (s : String) : String := bytesHex (sha256Bytes (utf8Str s))

/-- HMAC-SHA256 over byte lists (`crypto.createHmac('sha256', key)`). -/
def hmacSha256 (key msg : List Nat) : List Nat :=
  let k0 := if 64 < key.length then sha256Bytes key else key
  let kp := k0 ++ List.replicate (64 - k0.length) 0
  sha256Bytes ((kp.map (· ^^^ 92)) ++ sha256Bytes ((kp.map (· ^^^ 54)) ++ msg))

/-- `crypto.createHmac('sha256', secret).update(body).digest('hex')`. -/
def hmacSha256Hex (secret body : String) : String :=
  bytesHex (hmacSha256 (utf8Str secret) (utf8Str body))

/-! ## Identity derivation (`app/utils/nfc-conversion.server.ts`) -/

/-- The character class `[0-9a-fA-F]` of the `replace` regex in
`serialNumberToUID`. -/
def isHexDigitChar (c : Char) : Bool :=
  (48 ≤ c.toNat && c.toNat ≤ 57) || (97 ≤ c.toNat && c.toNat ≤ 102) ||
  (65 ≤ c.toNat && c.toNat ≤ 70)

/-- `serialNumber.replace(/[^0-9a-fA-F]/gi, '').toLowerCase()`: drop every
character outside the hex class, then lower-case what remains. -/
def cleanSerial (s : String) : String :=
  String.mk ((s.data.filter isHexDigitChar).map Char.toLower)

/-- `serialNumberToUID` from `nfc-conversion.server.ts`: SHA-256 the cleaned
serial and keep the first 16 hex characters. -/
def serialNumberToUID (s : String) : String :=
  (sha256HexOfString (cleanSerial s)).take 16

/-- `uidToToken` from `nfc-conversion.server.ts`: `"token_"` plus the full hex
SHA-256 digest of the UID. -/
def uidToToken (uid : String) : String :=
  "token_" ++ sha256HexOfString uid

/-- The `{uid, token}` pair produced by `serialNumberToToken`. -/
structure TagIdentity where
  uid : String
  token : String
deriving Repr, DecidableEq

/-- `serialNumberToToken` from `nfc-conversion.server.ts`. -/
def serialNumberToToken (s : String) : TagIdentity :=
  let uid := serialNumberToUID s
  ⟨uid, uidToToken uid⟩

/-- The spec's normalization, stated from the spec's words ("remove every
character outside `[0-9a-fA-F]`; lower-case the remainder") to be compared
with the source's derivation. -/
def specNormalize (s : String) : String :=
  String.mk ((s.data.filter isHexDigitChar).map Char.toLower)

/-- The spec's `uid` formula: first 16 hex characters of the hex-encoded
SHA-256 digest of the normalized serial. -/
def specUid (s : String) : String :=
  (sha256HexOfString (specNormalize s)).take 16

/-- The spec's `token` formula: `"token_" + hex(SHA-256(uid))`. -/
def specToken (u : String) : String :=
  "token_" ++ sha256HexOfString u

/-! ## JavaScript truthiness and defaulting helpers -/

/-- JS truthiness of an optional string field (`undefined`, `null` and `""`
are falsy; every non-empty string is truthy). -/
def jsTruthy (v : Option String) : Bool :=
  match v with
  | none => false
  | some s => !s.isEmpty

/-- JS `v || d` for an optional string `v`. -/
def jsOr (v : Option String) (d : String) : String :=
  match v with
  | none => d
  | some s => if s.isEmpty then d else s

/-! ## Webhook signature verification

`NFSService.verifyWebhookSignature` (`app/services/nfs.server.ts`) and the
inline HMAC check at the top of the `/ink/update` action
(`app/routes/ink.update.tsx`). -/

/-- `crypto.timingSafeEqual` on two equal-length buffers: byte-wise equality.
(The Node primitive throws on unequal lengths; the service checks lengths
first, so it is only reached with equal lengths.) -/
def timingSafeEqBytes (a b : List Nat) : Bool :=
  (a.zip b).all (fun p => p.1 == p.2)

/-- Cost model of `timingSafeEqual`: it inspects every byte pair regardless of
where mismatches occur, so its step count is the number of compared pairs. -/
def timingSafeEqSteps (a b : List Nat) : Nat :=
  (a.zip b).length

/-- Cost model of a plain early-exit equality scan (the conceptual cost of the
`signature !== expectedSignature` string comparison in `ink.update.tsx`): it
stops at the first differing character. -/
def eqScanSteps : List Char → List Char → Nat
  | [], [] => 0
  | [], _ :: _ => 0
  | _ :: _, [] => 0
  | a :: as, b :: bs => 1 + (if a = b then eqScanSteps as bs else 0)

/-- Step count of the `/ink/update` endpoint's own signature comparison
`signature !== expectedSignature` (received signature on the left, the
computed HMAC hex on the right). -/
def inkUpdateCompareSteps (secret rawBody signature : String) : Nat :=
  eqScanSteps signature.data (hmacSha256Hex secret rawBody).data

/-- Step count of the byte comparison inside
`NFSService.verifyWebhookSignature` (after its length check). -/
def verifySignatureCompareSteps (secret rawBody signature : String) : Nat :=
  timingSafeEqSteps (utf8Str signature) (utf8Str (hmacSha256Hex secret rawBody))

/-- `NFSService.verifyWebhookSignature` from `app/services/nfs.server.ts`:
no secret configured → `false`; buffer lengths differ → `false`; otherwise a
timing-safe byte comparison of the received signature against the computed
HMAC-SHA256 hex digest of the payload. -/
def verifyWebhookSignature (secret : Option String) (payload signature : String) : Bool :=
  if !(jsTruthy secret) then false
  else
    let computed := hmacSha256Hex (secret.getD "") payload
    let sigBytes := utf8Str signature
    let compBytes := utf8Str computed
    if sigBytes.length ≠ compBytes.length then false
    else timingSafeEqBytes sigBytes compBytes

/-- The signature gate at the top of the `/ink/update` action
(`ink.update.tsx` lines 44–79): `some status` is an early rejection with that
HTTP status, `none` means the request proceeds to payload processing. -/
def inkUpdateGate (secret sigHeader : Option String) (rawBody : String) : Option Nat :=
  if !(jsTruthy secret) then some 500
  else if !(jsTruthy sigHeader) then some 401
  else if sigHeader.getD "" ≠ hmacSha256Hex (secret.getD "") rawBody then some 403
  else none

/-! ## Order store oracle and the order resolver fallback chain -/

/-- The external Shopify order store, as the handlers observe it through the
Admin GraphQL API: a GID lookup (`order(id:)` returns a node or null), a
search (`orders(first: 1, query:)` returns the first matching node's id), and
metafield reads (available through the same API, whether the handlers consult
them or not). -/
structure OrderStore where
  orderExists : String → Bool
  search : String → Option String
  getMetafield : String → String → Option String

/-- `orderRef.replace(/\D/g, '')`: keep only the decimal digits. -/
def digitsOnly (s : String) : String :=
  String.mk (s.data.filter Char.isDigit)

/-- The canonical GID guess ``gid://shopify/Order/<digits>`` built from an
order reference. -/
def canonicalGid (ref : String) : String :=
  "gid://shopify/Order/" ++ digitsOnly ref

/-- The shared resilient order lookup of `ink.update.tsx` (lines 145–188) and
the enrollment action (`src/unnamed/part_009` lines 91–177): check the
canonical GID, else search `name:<digits>`, else search `name:#<digits>`. -/
def resolveOrder (st : OrderStore) (ref : String) : Option String :=
  let gid := canonicalGid ref
  if st.orderExists gid then some gid
  else
    match st.search ("name:" ++ digitsOnly ref) with
    | some found => some found
    | none => st.search ("name:#" ++ digitsOnly ref)

/-- The order GID the webhook handler ends up writing to: the resolved GID
when the chain hits, otherwise it keeps its initial canonical guess (the
handler only logs the failure and continues). -/
def webhookOrderGid (st : OrderStore) (ref : String) : String :=
  match resolveOrder st ref with
  | some gid => gid
  | none => canonicalGid ref

/-! ## Webhook payload processing (`app/routes/ink.update.tsx`) -/

/-- The JSON body of the `/ink/update` webhook
`{order_id, status, delivery_gps, gps_verdict, proof_ref, timestamp,
verify_url}`; absent fields are `none`, and `delivery_gps` is modelled by its
JSON serialization (the handler only ever re-serializes it). -/
structure WebhookPayload where
  order_id : Option String
  status : Option String
  delivery_gps : Option String
  gps_verdict : Option String
  proof_ref : Option String
  timestamp : Option String
  verify_url : Option String
deriving Repr, DecidableEq

/-- A metafield write in the `ink` namespace: key and value. -/
structure Metafield where
  key : String
  value : String
deriving Repr, DecidableEq

/-- Outcome of the webhook's post-signature processing: a 400 rejection for a
payload missing `order_id`/`status`, or the list of metafields passed to the
single `metafieldsSet` mutation. -/
inductive WebhookResult where
  | badRequest
  | processed (gid : String) (fields : List Metafield)
deriving Repr, DecidableEq

/-- The metafield batch the `/ink/update` action builds (lines 190–239):
`verification_status` is the event status written unconditionally,
`gps_verdict` defaults to `"unknown"`, `delivery_timestamp` defaults to the
current time `now`, `verify_url` defaults to `""`, and `proof_reference` /
`delivery_gps` are appended only when present. -/
def webhookFields (p : WebhookPayload) (now : String) : List Metafield :=
  let base := [⟨"verification_status", p.status.getD ""⟩,
               ⟨"gps_verdict", jsOr p.gps_verdict "unknown"⟩,
               ⟨"delivery_timestamp", jsOr p.timestamp now⟩,
               ⟨"verify_url", jsOr p.verify_url ""⟩]
  let withProof := if jsTruthy p.proof_ref then base ++ [⟨"proof_reference", p.proof_ref.getD ""⟩] else base
  if jsTruthy p.delivery_gps then withProof ++ [⟨"delivery_gps", p.delivery_gps.getD ""⟩] else withProof

/-- The `/ink/update` action after signature verification: validate
`order_id`/`status`, resolve the order, build the metafield batch. `now` is
`new Date().toISOString()` at processing time. -/
def inkUpdateProcess (st : OrderStore) (p : WebhookPayload) (now : String) : WebhookResult :=
  if !(jsTruthy p.order_id && jsTruthy p.status) then .badRequest
  else .processed (webhookOrderGid st (p.order_id.getD "")) (webhookFields p now)

/-- `metafieldsSet` semantics: the batch's writes are applied in order,
last-write-wins per key, over a metafield state `σ` (key → current value). -/
def applyFields (σ : String → Option String) : List Metafield → String → Option String
  | [] => σ
  | f :: rest => applyFields (fun k => if k = f.key then some f.value else σ k) rest

/-- The value the batch itself assigns to a key: the value of the last field
in the list with that key, if any. -/
def lastValue : List Metafield → String → Option String
  | [], _ => none
  | f :: rest, k =>
    match lastValue rest k with
    | some v => some v
    | none => if k = f.key then some f.value else none

/-- The order's metafield state after one delivery of webhook payload `p`
at processing time `now` (a rejected payload leaves the state unchanged). -/
def stateAfterWebhook (st : OrderStore) (σ : String → Option String)
    (p : WebhookPayload) (now : String) : String → Option String :=
  match inkUpdateProcess st p now with
  | .badRequest => σ
  | .processed _ fs => applyFields σ fs

/-! ## Enrollment action (`src/unnamed/part_009`, first handler) -/

/-- The enrollment request body
`{order_id, serial_number, photo_urls, photo_hashes, shipping_address_gps}`.
The two photo arrays only matter through their JS truthiness in the field
validation, so they are modelled by that boolean. -/
structure EnrollRequest where
  order_id : Option String
  serial_number : Option String
  photo_urls : Bool
  photo_hashes : Bool
deriving Repr, DecidableEq

/-- The proof authority's `/enroll` success response. -/
structure EnrollResponseR where
  proof_id : String
  enrollment_status : String
  key_id : String
deriving Repr, DecidableEq

/-- What the enrollment action did: the HTTP status it answered with, whether
it invoked the proof authority's `enroll` operation, the `nfc_uid` and
`nfc_token` values it sent there, and the metafield batch it wrote. -/
structure EnrollOutcome where
  httpStatus : Nat
  enrollCalled : Bool
  enrollUidSent : Option String
  enrollTokenSent : Option String
  ownerGid : Option String
  fields : List Metafield
deriving Repr, DecidableEq

/-- The enrollment action of `src/unnamed/part_009` (lines 20–315): session
check, field validation, identity derivation, resilient order lookup (404 when
the chain misses), unconditional `NFSService.enroll` call, then the metafield
batch `proof_reference` / `verification_status="enrolled"` / `nfc_uid` (the
raw serial). `enrollResult` stands for the authority's answer. -/
def enrollAction (st : OrderStore) (sessionOk : Bool) (req : EnrollRequest)
    (enrollResult : Except String EnrollResponseR) : EnrollOutcome :=
  if !sessionOk then ⟨500, false, none, none, none, []⟩
  else if !(jsTruthy req.order_id && jsTruthy req.serial_number &&
            req.photo_urls && req.photo_hashes) then
    ⟨400, false, none, none, none, []⟩
  else
    let serial := req.serial_number.getD ""
    let ident := serialNumberToToken serial
    match resolveOrder st (req.order_id.getD "") with
    | none => ⟨404, false, none, none, none, []⟩
    | some gid =>
      match enrollResult with
      | .error _ => ⟨500, true, some serial, some ident.token, some gid, []⟩
      | .ok r =>
        ⟨200, true, some serial, some ident.token, some gid,
         [⟨"proof_reference", r.proof_id⟩,
          ⟨"verification_status", "enrolled"⟩,
          ⟨"nfc_uid", serial⟩]⟩

/-! ## Proof-authority verify classification
(`NFSService.verify` in `app/services/nfs.server.ts` and the catch block of
`app/routes/api.verify.tsx`) -/

/-- JS `hay.includes(needle)`: substring containment. -/
def strContains (hay needle : String) : Bool :=
  hay.data.tails.any (fun t => needle.data.isPrefixOf t)

/-- `NFSService.verify`'s handling of the upstream HTTP response: a 2xx
response is parsed and returned, a non-2xx response throws an error whose
message prefixes classify the failure (403 → phone verification, 404 → tag not
enrolled, otherwise generic). `bodyText` is the upstream response body —
the parsed body for the 2xx path, the error text otherwise. -/
def nfsVerifyResult (status : Nat) (bodyText : String) : Except String String :=
  if 200 ≤ status && status ≤ 299 then .ok bodyText
  else if status == 403 then .error ("Phone verification required: " ++ bodyText)
  else if status == 404 then .error ("Tag not enrolled: " ++ bodyText)
  else .error ("NFS Verification failed: " ++ bodyText)

/-- The `/api/verify` action's surfacing of `NFSService.verify`'s outcome
(lines 280–306): a success returns the authority's body with status 200; a
thrown error is mapped by substring-matching its message — "Phone verification
required" → 403, then "Tag not enrolled" → 404, else 500. -/
def apiVerifyOutcome (status : Nat) (bodyText : String) : Nat × Option String :=
  match nfsVerifyResult status bodyText with
  | .ok body => (200, some body)
  | .error msg =>
    if strContains msg "Phone verification required" then (403, none)
    else if strContains msg "Tag not enrolled" then (404, none)
    else (500, none)

/-! ## Concrete fixtures used by the witnesses and counterexamples -/

/-- A store where every GID lookup succeeds, searches miss, and the order
already carries a `proof_reference` metafield. -/
def testStore : OrderStore :=
  ⟨fun _ => true, fun _ => none,
   fun _ k => if k = "proof_reference" then some "proof_prior" else none⟩

/-- A store where GID lookups fail and only the plain name query hits. -/
def nameHitStore : OrderStore :=
  ⟨fun _ => false,
   fun q => if q = "name:1014" then some "gid://shopify/Order/9" else none,
   fun _ _ => none⟩

/-- A store where GID lookups fail and only the `#`-prefixed name query hits. -/
def hashHitStore : OrderStore :=
  ⟨fun _ => false,
   fun q => if q = "name:#1014" then some "gid://shopify/Order/9" else none,
   fun _ _ => none⟩

/-- A store where every lookup misses. -/
def noHitStore : OrderStore :=
  ⟨fun _ => false, fun _ => none, fun _ _ => none⟩

/-- A metafield state with no keys set. -/
def emptyState : String → Option String := fun _ => none

/-- A metafield state where the order is already `verified`. -/
def verifiedState : String → Option String :=
  fun k => if k = "verification_status" then some "verified" else none

/-- A stale `status=enrolled` webhook event for an order. -/
def staleEnrolledEvent : WebhookPayload :=
  ⟨some "1014", some "enrolled", none, none, none, none, none⟩

/-- A `status=flagged` webhook event. -/
def flaggedEvent : WebhookPayload :=
  ⟨some "1014", some "flagged", none, none, some "proof_1", none, none⟩

/-- A `status=verified` webhook event that carries no `timestamp` field. -/
def noTimestampEvent : WebhookPayload :=
  ⟨some "1014", some "verified", none, none, none, none, none⟩

/-- A complete `status=verified` webhook event, `timestamp` included. -/
def fullVerifiedEvent : WebhookPayload :=
  ⟨some "1014", some "verified", some "gps-json", some "confirmed",
   some "proof_1", some "2024-05-01T10:00:00Z", some "https://in.ink/verify/p1"⟩

/-- A well-formed enrollment request with a separator-formatted serial. -/
def testEnrollReq : EnrollRequest :=
  ⟨some "1014", some "ef:8b:c4:c3", true, true⟩

/-- A successful proof-authority enrollment response. -/
def testEnrollResp : EnrollResponseR :=
  ⟨"proof_new", "enrolled", "key_1"⟩

/-! ## Helper lemmas -/

/-- Known-answer test: SHA-256 of the empty message (FIPS 180-4 vector). -/
theorem sha256_empty_vector :
    sha256HexOfString "" =
      "e3b0c44298fc1c149afbf4c8996fb92427ae41e4649b934ca495991b7852b855" := by
  decide

/-- Known-answer test: SHA-256 of `"abc"` (FIPS 180-4 vector). -/
theorem sha256_abc_vector :
    sha256HexOfString "abc" =
      "ba7816bf8f01cfea414140de5dae2223b00361a396177a9cb410ff61f20015ad" := by
  decide

/-- Known-answer test: HMAC-SHA256 with key `"key"` (the RFC 2104 fox
vector). -/
theorem hmac_fox_vector :
    hmacSha256Hex "key" "The quick brown fox jumps over the lazy dog" =
      "f7bc83f430538424b13298e6aa6fb143ef4d59a14946175997479dbc2d1a3cd8" := by
  decide

/-- Reading a key after a batch: the batch's own last write for the key if it
has one, otherwise the prior state. -/
theorem applyFields_apply (fs : List Metafield) (σ : String → Option String) (k : String) :
    applyFields σ fs k = (lastValue fs k).or (σ k) := by
  induction fs generalizing σ with
  | nil => simp [applyFields, lastValue]
  | cons f rest ih =>
    show applyFields _ rest k = _
    rw [ih]
    cases h : lastValue rest k with
    | some v => simp [lastValue, h]
    | none =>
      by_cases hk : k = f.key
      · subst hk; simp [lastValue, h, Option.or]
      · simp [lastValue, h, hk, Option.or]

/-- Applying the same batch a second time does not change the state. -/
theorem applyFields_twice (σ : String → Option String) (fs : List Metafield) :
    applyFields (applyFields σ fs) fs = applyFields σ fs := by
  funext k
  rw [applyFields_apply, applyFields_apply]
  cases lastValue fs k <;> simp [Option.or]

/-- A needle that is a list prefix of the haystack is contained in it. -/
theorem strContains_of_prefix {hay needle : String}
    (h : needle.data <+: hay.data) : strContains hay needle = true := by
  unfold strContains
  rw [List.any_eq_true]
  exact ⟨hay.data, (List.mem_tails _ _).mpr List.suffix_rfl,
    List.isPrefixOf_iff_prefix.mpr h⟩

/-- Appending to a string keeps an existing prefix containment. -/
theorem strContains_append_of_prefix (lit : String) (t : String) (needle : String)
    (h : needle.data <+: lit.data) :
    strContains (lit ++ t) needle = true := by
  apply strContains_of_prefix
  have : (lit ++ t).data = lit.data ++ t.data := by
    cases lit; cases t; rfl
  rw [this]
  exact h.trans (List.prefix_append _ _)

/-! ## Claim C3 — derivation formulas -/

/-- Claim C3: for every serial, `serialNumberToUID` is the first 16 hex
characters of the hex SHA-256 digest of the serial normalized by removing
non-hex characters and lower-casing; and for every uid, `uidToToken` is
`"token_"` plus the full hex SHA-256 digest of the uid — the source functions
coincide with the spec's formulas. -/
theorem claim_C3_derivation_formula :
    (∀ s, serialNumberToUID s = specUid s) ∧ (∀ u, uidToToken u = specToken u) :=
  ⟨fun _ => rfl, fun _ => rfl⟩

/-! ## Claim C4 — separator invariance -/

/-- Claim C4: two serials that agree after dropping every non-hex character
derive the same `{uid, token}` identity. -/
theorem claim_C4_separator_invariance (s₁ s₂ : String)
    (h : s₁.data.filter isHexDigitChar = s₂.data.filter isHexDigitChar) :
    serialNumberToToken s₁ = serialNumberToToken s₂ := by
  have hc : cleanSerial s₁ = cleanSerial s₂ := by
    simp [cleanSerial, h]
  simp [serialNumberToToken, serialNumberToUID, hc]

/-- Witness for C4 at the spec's own examples: `"12:12:11"`, `"121211"` and
`"12-12-11"` all derive the same identity. -/
theorem claim_C4_witness :
    serialNumberToToken "12:12:11" = serialNumberToToken "121211"
    ∧ serialNumberToToken "121211" = serialNumberToToken "12-12-11" :=
  ⟨claim_C4_separator_invariance _ _ (by decide),
   claim_C4_separator_invariance _ _ (by decide)⟩

/-! ## Claim C1 — status regression on stale events -/

/-- Counterexample to C1 as stated: on an order whose `verification_status`
is already `"verified"`, processing a stale `status=enrolled` webhook event
does write `verification_status` back to `"enrolled"` — the handler has no
regression guard. -/
theorem claim_C1_counterexample :
    stateAfterWebhook testStore verifiedState staleEnrolledEvent
        "2024-05-02T00:00:00Z" "verification_status" = some "enrolled"
    ∧ verifiedState "verification_status" = some "verified" := by
  constructor <;> decide

/-- Claim C1 (amended): the `/ink/update` handler writes the incoming event
status to `verification_status` unconditionally — so a `flagged` event always
overrides (as the claim says), but a stale `enrolled` event equally overwrites
an existing `verified` status. -/
theorem claim_C1_amended (st : OrderStore) (σ : String → Option String)
    (p : WebhookPayload) (now s : String)
    (hs : p.status = some s) (hne : s.isEmpty = false)
    (ho : jsTruthy p.order_id = true) :
    stateAfterWebhook st σ p now "verification_status" = some s := by
  have hstat : jsTruthy p.status = true := by simp [jsTruthy, hs, hne]
  have hlast : lastValue (webhookFields p now) "verification_status" = some s := by
    unfold webhookFields
    split_ifs <;> simp [lastValue, hs]
  simp [stateAfterWebhook, inkUpdateProcess, ho, hstat, applyFields_apply, hlast]

/-- Witness for the amended C1: a `flagged` event overrides a `verified`
order. -/
theorem claim_C1_witness :
    stateAfterWebhook testStore verifiedState flaggedEvent
        "2024-05-02T00:00:00Z" "verification_status" = some "flagged" :=
  claim_C1_amended _ _ _ _ _ rfl (by decide) (by decide)

/-! ## Claim C2 — idempotent webhook replay -/

/-- Counterexample to C2 as stated: a payload that carries no `timestamp`
field passes validation, and its `delivery_timestamp` metafield is filled with
the processing-time clock, so the second delivery of the identical payload
writes a different value than the first. -/
theorem claim_C2_counterexample :
    stateAfterWebhook testStore
        (stateAfterWebhook testStore emptyState noTimestampEvent "2024-05-01T00:00:00Z")
        noTimestampEvent "2024-05-02T00:00:00Z" "delivery_timestamp"
      = some "2024-05-02T00:00:00Z"
    ∧ stateAfterWebhook testStore emptyState noTimestampEvent "2024-05-01T00:00:00Z"
        "delivery_timestamp" = some "2024-05-01T00:00:00Z"
    ∧ ("2024-05-02T00:00:00Z" : String) ≠ "2024-05-01T00:00:00Z" := by
  refine ⟨by decide, by decide, by decide⟩

/-- Claim C2 (amended): when the payload carries a (non-empty) `timestamp`
field, the metafield batch is independent of the processing time, and
replaying the identical payload leaves the state exactly as after the first
delivery. -/
theorem claim_C2_amended (st : OrderStore) (σ : String → Option String)
    (p : WebhookPayload) (now₁ now₂ t : String)
    (ht : p.timestamp = some t) (hne : t.isEmpty = false) :
    inkUpdateProcess st p now₂ = inkUpdateProcess st p now₁
    ∧ stateAfterWebhook st (stateAfterWebhook st σ p now₁) p now₂
        = stateAfterWebhook st σ p now₁ := by
  have hf : webhookFields p now₂ = webhookFields p now₁ := by
    simp [webhookFields, jsOr, ht, hne]
  have hp : inkUpdateProcess st p now₂ = inkUpdateProcess st p now₁ := by
    simp [inkUpdateProcess, hf]
  refine ⟨hp, ?_⟩
  unfold stateAfterWebhook
  rw [hp]
  cases hcase : inkUpdateProcess st p now₁ with
  | badRequest => rfl
  | processed gid fs => exact applyFields_twice σ fs

/-- Witness for the amended C2: replaying a complete `verified` event is a
no-op on the final state. -/
theorem claim_C2_witness :
    inkUpdateProcess testStore fullVerifiedEvent "2024-06-02T00:00:00Z"
      = inkUpdateProcess testStore fullVerifiedEvent "2024-06-01T00:00:00Z"
    ∧ stateAfterWebhook testStore
        (stateAfterWebhook testStore emptyState fullVerifiedEvent "2024-06-01T00:00:00Z")
        fullVerifiedEvent "2024-06-02T00:00:00Z"
      = stateAfterWebhook testStore emptyState fullVerifiedEvent "2024-06-01T00:00:00Z" :=
  claim_C2_amended _ _ _ _ _ _ rfl (by decide)

/-! ## Claim C5 — constant-time signature comparison -/

/-- Counterexample to C5 as stated: the `/ink/update` endpoint compares the
received signature to the computed HMAC with plain string inequality, whose
cost stops at the first differing character. Two invalid signatures of equal
length (the true digest of `("secret", "body")` with its first, respectively
last, character flipped) take a different number of comparison steps, so the
comparison the webhook endpoint performs is not constant-time. -/
theorem claim_C5_counterexample :
    ("0c46983557fea127b43af721467eb9b3fde2338fe3e14f51952aa8478c13d355" : String).length
      = ("dc46983557fea127b43af721467eb9b3fde2338fe3e14f51952aa8478c13d350" : String).length
    ∧ "0c46983557fea127b43af721467eb9b3fde2338fe3e14f51952aa8478c13d355"
        ≠ hmacSha256Hex "secret" "body"
    ∧ "dc46983557fea127b43af721467eb9b3fde2338fe3e14f51952aa8478c13d350"
        ≠ hmacSha256Hex "secret" "body"
    ∧ inkUpdateCompareSteps "secret" "body"
        "0c46983557fea127b43af721467eb9b3fde2338fe3e14f51952aa8478c13d355"
      ≠ inkUpdateCompareSteps "secret" "body"
        "dc46983557fea127b43af721467eb9b3fde2338fe3e14f51952aa8478c13d350" := by
  refine ⟨by decide, by decide, by decide, by decide⟩

/-- Claim C5 (amended): the length-checked, timing-safe comparison exists in
`NFSService.verifyWebhookSignature`, whose byte comparison inspects every byte
pair — its cost is the same for any two signatures of equal length — but the
`/ink/update` endpoint does not call it (see the counterexample for its
early-exit comparison). -/
theorem claim_C5_amended (secret body sig₁ sig₂ : String)
    (h : (utf8Str sig₁).length = (utf8Str sig₂).length) :
    verifySignatureCompareSteps secret body sig₁
      = verifySignatureCompareSteps secret body sig₂ := by
  simp [verifySignatureCompareSteps, timingSafeEqSteps, List.length_zip, h]

/-- Witness for the amended C5 at two concrete equal-length signatures. -/
theorem claim_C5_witness :
    verifySignatureCompareSteps "secret" "body"
        "aaaaaaaaaaaaaaaaaaaaaaaaaaaaaaaaaaaaaaaaaaaaaaaaaaaaaaaaaaaaaaaa"
      = verifySignatureCompareSteps "secret" "body"
        "bbbbbbbbbbbbbbbbbbbbbbbbbbbbbbbbbbbbbbbbbbbbbbbbbbbbbbbbbbbbbbbb" :=
  claim_C5_amended _ _ _ _ (by decide)

/-! ## Claim C6 — verification fails closed -/

/-- Claim C6: webhook signature verification fails closed.
`NFSService.verifyWebhookSignature` returns `false` when no secret is
configured (unset or empty) and when the signature's byte length differs from
the computed HMAC hex digest's; the `/ink/update` endpoint rejects a missing
secret with 500, a missing signature header with 401, and a mismatched
signature with 403. All paths yield a value — the embedding is a total
function, mirroring that the handler never throws (malformed input is caught
and answered, never propagated). -/
theorem claim_C6_fails_closed :
    (∀ payload signature, verifyWebhookSignature none payload signature = false)
    ∧ (∀ payload signature, verifyWebhookSignature (some "") payload signature = false)
    ∧ (∀ sec payload signature,
        (utf8Str signature).length ≠ (utf8Str (hmacSha256Hex sec payload)).length →
        verifyWebhookSignature (some sec) payload signature = false)
    ∧ (∀ sigHeader rawBody, inkUpdateGate none sigHeader rawBody = some 500)
    ∧ (∀ secret rawBody, inkUpdateGate secret none rawBody
        = if jsTruthy secret then some 401 else some 500)
    ∧ (∀ sec sig rawBody, sec.isEmpty = false → sig.isEmpty = false →
        sig ≠ hmacSha256Hex sec rawBody →
        inkUpdateGate (some sec) (some sig) rawBody = some 403) := by
  refine ⟨?_, ?_, ?_, ?_, ?_, ?_⟩
  · intro payload signature
    simp [verifyWebhookSignature, jsTruthy]
  · intro payload signature
    simp [verifyWebhookSignature, jsTruthy, show "".isEmpty = true from rfl]
  · intro sec payload signature h
    by_cases hsec : sec.isEmpty <;>
      simp [verifyWebhookSignature, jsTruthy, hsec, h]
  · intro sigHeader rawBody
    simp [inkUpdateGate, jsTruthy]
  · intro secret rawBody
    cases secret with
    | none => simp [inkUpdateGate, jsTruthy]
    | some sec => by_cases hsec : sec.isEmpty <;> simp [inkUpdateGate, jsTruthy, hsec]
  · intro sec sig rawBody hsec hsig hne
    simp [inkUpdateGate, jsTruthy, hsec, hsig, hne]

/-- Witness for C6 at concrete inputs: each fail-closed path observed. -/
theorem claim_C6_witness :
    verifyWebhookSignature none "payload" "sig" = false
    ∧ verifyWebhookSignature (some "") "payload" "sig" = false
    ∧ verifyWebhookSignature (some "sec") "payload" "sig" = false
    ∧ inkUpdateGate none (some "sig") "body" = some 500
    ∧ inkUpdateGate (some "sec") none "body" = some 401
    ∧ inkUpdateGate (some "sec") (some "sig") "body" = some 403 :=
  ⟨claim_C6_fails_closed.1 "payload" "sig",
   claim_C6_fails_closed.2.1 "payload" "sig",
   claim_C6_fails_closed.2.2.1 "sec" "payload" "sig" (by decide),
   claim_C6_fails_closed.2.2.2.1 (some "sig") "body",
   by simpa using claim_C6_fails_closed.2.2.2.2.1 (some "sec") "body",
   claim_C6_fails_closed.2.2.2.2.2 "sec" "sig" "body" (by decide) (by decide) (by decide)⟩

/-! ## Claim C7 — double-enrollment guard -/

/-- Counterexample to C7 as stated: the enrollment handler never reads the
existing `proof_reference` metafield — on a store where that metafield is
already set, a valid enrollment request still invokes the proof authority's
`enroll` operation. -/
theorem claim_C7_counterexample :
    (enrollAction testStore true testEnrollReq (.ok testEnrollResp)).enrollCalled = true
    ∧ testStore.getMetafield "gid://shopify/Order/1014" "proof_reference"
        = some "proof_prior" := by
  refine ⟨by decide, by decide⟩

/-- Claim C7 (amended): once session, field validation and order resolution
succeed, the enrollment handler calls `enroll` unconditionally — it consults
no metafield, so a repeated enrollment request for an already-enrolled order
creates a second proof record upstream. -/
theorem claim_C7_amended (st : OrderStore) (req : EnrollRequest)
    (er : Except String EnrollResponseR) (gid : String)
    (hv : (jsTruthy req.order_id && jsTruthy req.serial_number &&
           req.photo_urls && req.photo_hashes) = true)
    (hr : resolveOrder st (req.order_id.getD "") = some gid) :
    (enrollAction st true req er).enrollCalled = true := by
  cases er <;> simp [enrollAction, hv, hr]

/-- Witness for the amended C7: `enroll` is invoked even when the authority
then fails, on a store resolved through the name search. -/
theorem claim_C7_witness :
    (enrollAction nameHitStore true testEnrollReq (.error "authority down")).enrollCalled
      = true :=
  claim_C7_amended nameHitStore testEnrollReq (.error "authority down")
    "gid://shopify/Order/9" (by decide) (by decide)

/-! ## Claim C8 — order resolution fallback chain -/

/-- Claim C8: order resolution follows the three-step chain — return the
canonical GID when it exists; else the result of the `name:<digits>` search
when it hits; else the result of the `name:#<digits>` search — and the
enrollment handler answers 404 exactly when the whole chain misses. -/
theorem claim_C8_resolver_chain :
    (∀ st ref, st.orderExists (canonicalGid ref) = true →
        resolveOrder st ref = some (canonicalGid ref))
    ∧ (∀ st ref found, st.orderExists (canonicalGid ref) = false →
        st.search ("name:" ++ digitsOnly ref) = some found →
        resolveOrder st ref = some found)
    ∧ (∀ st ref, st.orderExists (canonicalGid ref) = false →
        st.search ("name:" ++ digitsOnly ref) = none →
        resolveOrder st ref = st.search ("name:#" ++ digitsOnly ref))
    ∧ (∀ st req er,
        (jsTruthy req.order_id && jsTruthy req.serial_number &&
         req.photo_urls && req.photo_hashes) = true →
        ((enrollAction st true req er).httpStatus = 404 ↔
          resolveOrder st (req.order_id.getD "") = none)) := by
  refine ⟨?_, ?_, ?_, ?_⟩
  · intro st ref h
    simp [resolveOrder, h]
  · intro st ref found h h2
    simp [resolveOrder, h, h2]
  · intro st ref h h2
    simp [resolveOrder, h, h2]
  · intro st req er hv
    cases hr : resolveOrder st (req.order_id.getD "") with
    | none => simp [enrollAction, hv, hr]
    | some gid => cases er <;> simp [enrollAction, hv, hr]

/-- Witness for C8: each step of the chain observed on a concrete store, and
the enrollment 404 exactly on a store where every lookup misses. -/
theorem claim_C8_witness :
    resolveOrder testStore "1014" = some "gid://shopify/Order/1014"
    ∧ resolveOrder nameHitStore "1014" = some "gid://shopify/Order/9"
    ∧ resolveOrder hashHitStore "1014" = hashHitStore.search "name:#1014"
    ∧ ((enrollAction noHitStore true testEnrollReq (.ok testEnrollResp)).httpStatus = 404
        ↔ resolveOrder noHitStore "1014" = none) :=
  ⟨claim_C8_resolver_chain.1 testStore "1014" (by decide),
   claim_C8_resolver_chain.2.1 nameHitStore "1014" "gid://shopify/Order/9"
     (by decide) (by decide),
   claim_C8_resolver_chain.2.2.1 hashHitStore "1014" (by decide) (by decide),
   claim_C8_resolver_chain.2.2.2 noHitStore testEnrollReq (.ok testEnrollResp) (by decide)⟩

/-! ## Claim C9 — verify failure classification -/

/-- Counterexample to C9 as stated: an upstream HTTP 404 whose error text
contains the phrase "Phone verification required" is surfaced by the
customer-facing verify endpoint as status 403, not 404 — the endpoint
classifies by substring-matching the thrown message, and the 403 check runs
first. -/
theorem claim_C9_counterexample :
    apiVerifyOutcome 404 "Phone verification required for this tag" = (403, none) := by
  decide

/-- Claim C9 (amended): upstream 403 always surfaces as 403; upstream 404
surfaces as 404 provided the thrown "Tag not enrolled: ..." message does not
contain the 403 phrase; any other non-2xx surfaces as 500 provided the
generic message contains neither classification phrase; and a 2xx response
returns the parsed body with status 200. -/
theorem claim_C9_amended :
    (∀ t, apiVerifyOutcome 403 t = (403, none))
    ∧ (∀ t, strContains ("Tag not enrolled: " ++ t) "Phone verification required" = false →
        apiVerifyOutcome 404 t = (404, none))
    ∧ (∀ s t, (s < 200 ∨ 299 < s) → s ≠ 403 → s ≠ 404 →
        strContains ("NFS Verification failed: " ++ t) "Phone verification required" = false →
        strContains ("NFS Verification failed: " ++ t) "Tag not enrolled" = false →
        apiVerifyOutcome s t = (500, none))
    ∧ (∀ s t, 200 ≤ s → s ≤ 299 → apiVerifyOutcome s t = (200, some t)) := by
  refine ⟨?_, ?_, ?_, ?_⟩
  · intro t
    have h1 : strContains ("Phone verification required: " ++ t)
        "Phone verification required" = true :=
      strContains_append_of_prefix _ _ _ (by decide)
    simp [apiVerifyOutcome, nfsVerifyResult, h1]
  · intro t hnophone
    have h2 : strContains ("Tag not enrolled: " ++ t) "Tag not enrolled" = true :=
      strContains_append_of_prefix _ _ _ (by decide)
    simp [apiVerifyOutcome, nfsVerifyResult, hnophone, h2]
  · intro s t hrange h403 h404 hnp hnt
    have hok : (decide (200 ≤ s) && decide (s ≤ 299)) = false := by
      rcases hrange with h | h
      · have hlt : ¬ 200 ≤ s := by omega
        simp [hlt]
      · have hlt : ¬ s ≤ 299 := by omega
        simp [hlt]
    have hb3 : (s == 403) = false := by
      rw [beq_eq_false_iff_ne]; exact h403
    have hb4 : (s == 404) = false := by
      rw [beq_eq_false_iff_ne]; exact h404
    simp [apiVerifyOutcome, nfsVerifyResult, hok, hb3, hb4, hnp, hnt]
  · intro s t h1 h2
    have hok : (decide (200 ≤ s) && decide (s ≤ 299)) = true := by
      simp [h1, h2]
    simp [apiVerifyOutcome, nfsVerifyResult, hok]

/-- Witness for the amended C9 at a concrete call per class. -/
theorem claim_C9_witness :
    apiVerifyOutcome 403 "need phone" = (403, none)
    ∧ apiVerifyOutcome 404 "unknown tag" = (404, none)
    ∧ apiVerifyOutcome 503 "upstream down" = (500, none)
    ∧ apiVerifyOutcome 200 "verify-body" = (200, some "verify-body") :=
  ⟨claim_C9_amended.1 "need phone",
   claim_C9_amended.2.1 "unknown tag" (by decide),
   claim_C9_amended.2.2.1 503 "upstream down" (by omega) (by decide) (by decide)
     (by decide) (by decide),
   claim_C9_amended.2.2.2 200 "verify-body" (by omega) (by omega)⟩

/-! ## Claim C10 — raw serial stored in `nfc_uid` -/

/-- Claim C10: on a successful enrollment the `nfc_uid` metafield is set to
the raw `serial_number` exactly as received (and so not to the derived
16-hex-character UID whenever the raw serial differs from it); the derived
UID reaches the proof authority only through the token. -/
theorem claim_C10_raw_serial (st : OrderStore) (req : EnrollRequest)
    (r : EnrollResponseR) (serial gid : String)
    (hser : req.serial_number = some serial)
    (hv : (jsTruthy req.order_id && jsTruthy req.serial_number &&
           req.photo_urls && req.photo_hashes) = true)
    (hr : resolveOrder st (req.order_id.getD "") = some gid) :
    lastValue (enrollAction st true req (.ok r)).fields "nfc_uid" = some serial
    ∧ (enrollAction st true req (.ok r)).enrollUidSent = some serial
    ∧ (enrollAction st true req (.ok r)).enrollTokenSent
        = some (uidToToken (serialNumberToUID serial))
    ∧ (serial ≠ serialNumberToUID serial →
        lastValue (enrollAction st true req (.ok r)).fields "nfc_uid"
          ≠ some (serialNumberToUID serial)) := by
  have hact : enrollAction st true req (.ok r)
      = ⟨200, true, some serial, some (uidToToken (serialNumberToUID serial)), some gid,
         [⟨"proof_reference", r.proof_id⟩, ⟨"verification_status", "enrolled"⟩,
          ⟨"nfc_uid", serial⟩]⟩ := by
    rw [hser] at hv
    simp [enrollAction, hv, hr, hser, serialNumberToToken]
  rw [hact]
  refine ⟨by simp [lastValue], rfl, rfl, ?_⟩
  intro hne
  simp only [lastValue]
  simp [hne]

/-- Witness for C10 at the separator-formatted serial `"ef:8b:c4:c3"`: the
stored metafield is the raw serial, which differs from the derived UID. -/
theorem claim_C10_witness :
    lastValue (enrollAction testStore true testEnrollReq (.ok testEnrollResp)).fields
        "nfc_uid" = some "ef:8b:c4:c3"
    ∧ (enrollAction testStore true testEnrollReq (.ok testEnrollResp)).enrollTokenSent
        = some (uidToToken (serialNumberToUID "ef:8b:c4:c3"))
    ∧ lastValue (enrollAction testStore true testEnrollReq (.ok testEnrollResp)).fields
        "nfc_uid" ≠ some (serialNumberToUID "ef:8b:c4:c3") :=
  ⟨(claim_C10_raw_serial testStore testEnrollReq testEnrollResp "ef:8b:c4:c3"
      "gid://shopify/Order/1014" rfl (by decide) (by decide)).1,
   (claim_C10_raw_serial testStore testEnrollReq testEnrollResp "ef:8b:c4:c3"
      "gid://shopify/Order/1014" rfl (by decide) (by decide)).2.2.1,
   (claim_C10_raw_serial testStore testEnrollReq testEnrollResp "ef:8b:c4:c3"
      "gid://shopify/Order/1014" rfl (by decide) (by decide)).2.2.2 (by decide)⟩

end Ink
